import Mathlib

/-!
Verification of the two-stage research pipeline in `main.py`
(ResearchAgent / AnalystAgent / ResearchSystem / run_full_research).

Shallow embedding: every external-provider effect (Tavily search, Groq
summarizer model, Gemini report model, client construction, credential
lookup) is modelled as an explicit oracle value of type `Except String _`
(`Except.error e` models a Python exception carrying message `e`).
Python `try/except` blocks become pattern matches on those `Except`
values.  The functions of `main.py` are translated to total Lean
functions over the oracles; each also has a trace-collecting variant
(suffix `T`) recording the provider calls made, in order, so that
claims about which calls happen (and how often) can be stated.
-/

namespace NitroAgent

set_option maxRecDepth 4000

/-- One entry of the Tavily response list.  Python items are dicts that
may lack keys, hence `Option` fields (`none` models a missing key;
`it.get(k, default)` becomes `Option.getD`). -/
structure SearchItem where
  title : Option String
  content : Option String
  url : Option String
deriving DecidableEq, Repr

/-- Python truthiness of an optional string credential: `None` and the
empty string are falsy, as in `if not (self.groq_api_key and ...)`. -/
def pyTruthy : Option String → Bool
  | none => false
  | some s => s != ""

/-- Semantics of Python `sep.join(parts)`. -/
def pyJoin (sep : String) : List String → String
  | [] => ""
  | [s] => s
  | s :: rest => s ++ sep ++ pyJoin sep rest

/-- Python string slicing `s[:n]`: the first `n` characters (all of `s`
when it is shorter).  Equal to `String.take` by `String.take_eq`, but
stated on the character list so it evaluates without deep recursion. -/
def pyTake (s : String) (n : Nat) : String := ⟨s.data.take n⟩

/-- The per-item block built in `_search_web`:
`f"Title: {it.get('title','N/A')}\nContent: {content}\nURL: {it.get('url','N/A')}\n---"`
with `content = it.get('content', 'N/A')[:1500]`. -/
def formatItem (it : SearchItem) : String :=
  "Title: " ++ it.title.getD "N/A" ++
  "\nContent: " ++ pyTake (it.content.getD "N/A") 1500 ++
  "\nURL: " ++ it.url.getD "N/A" ++ "\n---"

/-- `ResearchAgent._search_web`: the whole body is wrapped in
`try/except`, so a raising provider call is converted to
`"Search failed: <e>"`; an empty result list yields `"No results."`;
otherwise the formatted blocks are joined with `"\n"`. -/
def searchWeb (search : String → Except String (List SearchItem))
    (query : String) : String :=
  match search query with
  | .error e => "Search failed: " ++ e
  | .ok [] => "No results."
  | .ok items => pyJoin "\n" (items.map formatItem)

/-- The three sub-queries built at the top of `research_topic`. -/
def queries (topic : String) : List String :=
  [topic ++ " recent developments",
   topic ++ " key players and companies",
   topic ++ " major challenges and opportunities"]

/-- The fixed `SystemMessage` content passed to the summarizer model. -/
def systemMsg : String := "You are an expert research analyst."

/-- The `HumanMessage` prompt built in the loop of `research_topic`. -/
def buildPrompt (topic q webData : String) : String :=
  "You are an expert researcher. Synthesize this data on '" ++ topic ++ "':\n\n" ++
  "Query: " ++ q ++ "\n" ++ webData ++ "\n" ++
  "Provide a concise, factual summary based *only* on the provided data (max 250 words)."

/-- A provider call made during a run, for stating claims about which
calls happen and with what arguments. -/
inductive Event where
  | searchCall (query : String)
  | summarizeCall (system human : String)
  | reportCall (prompt : String)
deriving DecidableEq, Repr

/-- Recognizer for report-model calls in a trace. -/
def isReportCall : Event → Bool
  | .reportCall _ => true
  | _ => false

/-- The `for q in queries` loop of `research_topic`, with trace.
`searchWeb` never raises; the only raising call inside the loop body is
`self.llm.invoke` (the summarizer), whose exception aborts the loop and
propagates (first component `Except.error e`), discarding summaries
already collected.  A sub-query whose search text equals `"No results."`
is skipped without summarization. -/
def runQueriesT (search : String → Except String (List SearchItem))
    (summarize : String → String → Except String String)
    (topic : String) : List String → Except String (List String) × List Event
  | [] => (Except.ok [], [])
  | q :: qs =>
    let webData := searchWeb search q
    if webData = "No results." then
      let rest := runQueriesT search summarize topic qs
      (rest.1, Event.searchCall q :: rest.2)
    else
      let prompt := buildPrompt topic q webData
      match summarize systemMsg prompt with
      | .error e => (Except.error e, [Event.searchCall q, Event.summarizeCall systemMsg prompt])
      | .ok s =>
        let rest := runQueriesT search summarize topic qs
        (rest.1.map (fun l => s :: l), Event.searchCall q :: Event.summarizeCall systemMsg prompt :: rest.2)

/-- `ResearchAgent.research_topic`, with trace.  The surrounding
`try/except` converts a propagating summarizer exception to
`"Research failed: <e>"`; an empty summary list yields the
literal insufficient-information text; otherwise the summaries are
joined with `"\n\n---\n\n"`. -/
def researchTopicT (search : String → Except String (List SearchItem))
    (summarize : String → String → Except String String)
    (topic : String) : String × List Event :=
  let r := runQueriesT search summarize topic (queries topic)
  (match r.1 with
   | .error e => "Research failed: " ++ e
   | .ok [] => "Could not find sufficient information on the topic."
   | .ok summaries => pyJoin "\n\n---\n\n" summaries,
   r.2)

/-- `ResearchAgent.research_topic` (result only). -/
def researchTopic (search : String → Except String (List SearchItem))
    (summarize : String → String → Except String String)
    (topic : String) : String :=
  (researchTopicT search summarize topic).1

/-- The prompt built in `AnalystAgent.create_report`; `today` stands for
`datetime.now().strftime('%Y-%m-%d')`. -/
def reportPrompt (today topic researchData : String) : String :=
  "You are a senior research analyst. Create a detailed, well-structured markdown report on '" ++ topic ++ "'.\n\n" ++
  "Use the following research summaries to construct your report. Adhere strictly to the provided information.\n\n" ++
  "Include the following sections:\n" ++
  "- **Executive Summary**\n" ++
  "- **Key Findings**\n" ++
  "- **Detailed Analysis**\n" ++
  "- **Conclusions & Recommendations**\n\n" ++
  "--- RESEARCH DATA START ---\n" ++ researchData ++ "\n--- RESEARCH DATA END ---\n\n" ++
  "Current date: " ++ today

/-- `AnalystAgent.create_report`, with trace: invokes the report model
once; its `try/except` converts a raising call to
`"Report generation failed: <e>"`. -/
def createReportT (report : String → Except String String)
    (today topic researchData : String) : String × List Event :=
  let prompt := reportPrompt today topic researchData
  (match report prompt with
   | .error e => "Report generation failed: " ++ e
   | .ok text => text,
   [Event.reportCall prompt])

/-- `AnalystAgent.create_report` (result only). -/
def createReport (report : String → Except String String)
    (today topic researchData : String) : String :=
  (createReportT report today topic researchData).1

/-- All external behavior a run can observe: resolved credentials,
client/model construction outcomes, and the three provider calls. -/
structure Oracles where
  groqKey : Option String
  tavilyKey : Option String
  geminiKey : Option String
  mkChatGroq : Except String Unit
  mkTavilyClient : Except String Unit
  configureGenai : Except String Unit
  mkGenerativeModel : Except String Unit
  search : String → Except String (List SearchItem)
  summarize : String → String → Except String String
  report : String → Except String String
  today : String

/-- `ResearchAgent.__init__`: checks truthiness of both keys, raising
`ValueError("Missing GROQ_API_KEY or TAVILY_API_KEY")` when the
conjunction is falsy, then constructs `ChatGroq` and `TavilyClient`
(either construction may itself raise; nothing is caught here). -/
def researchAgentInitE (groqKey tavilyKey : Option String)
    (mkGroq mkTavily : Except String Unit) : Except String Unit :=
  if pyTruthy groqKey && pyTruthy tavilyKey then do
    mkGroq
    mkTavily
  else Except.error "Missing GROQ_API_KEY or TAVILY_API_KEY"

/-- `AnalystAgent.__init__`: checks the Gemini key, raising
`ValueError("Missing GEMINI_API_KEY")` when falsy, then configures the
SDK and constructs the model (uncaught). -/
def analystAgentInitE (geminiKey : Option String)
    (configure mkModel : Except String Unit) : Except String Unit :=
  if pyTruthy geminiKey then do
    configure
    mkModel
  else Except.error "Missing GEMINI_API_KEY"

/-- `ResearchSystem.__init__`: constructs the two agents in order. -/
def researchSystemInitE (o : Oracles) : Except String Unit := do
  researchAgentInitE o.groqKey o.tavilyKey o.mkChatGroq o.mkTavilyClient
  analystAgentInitE o.geminiKey o.configureGenai o.mkGenerativeModel

/-- `run_full_research`, with trace.  Inside the `try` block the only
raising step is `ResearchSystem()` construction: `research_topic` and
`create_report` are total (each catches every exception internally), so
the outer `except` fires exactly on initialization errors and converts
them to the `# Research Failed` document. -/
def runFullResearchT (o : Oracles) (topic : String) : String × List Event :=
  match researchSystemInitE o with
  | .error e => ("# Research Failed\n\nAn unexpected error occurred: " ++ e ++ "\n", [])
  | .ok _ =>
    let rt := researchTopicT o.search o.summarize topic
    let rp := createReportT o.report o.today topic rt.1
    (rp.1, rt.2 ++ rp.2)

/-- `run_full_research` (result only). -/
def runFullResearch (o : Oracles) (topic : String) : String :=
  (runFullResearchT o topic).1

/-- Boolean substring containment (used to state claims about error
messages naming a key, as `pytest.raises(match=...)` does). -/
def containsSub (hay needle : String) : Bool :=
  (List.range (hay.data.length + 1)).any fun i =>
    needle.data.isPrefixOf (hay.data.drop i)

/-- A concrete well-formed search item, as in the test suite and the
concrete scenario of the specification. -/
def itemTCU : SearchItem := { title := some "T", content := some "C", url := some "U" }

/-- Search oracle returning the single item `itemTCU` for every query. -/
def searchAllTCU : String → Except String (List SearchItem) := fun _ => Except.ok [itemTCU]

/-- Search oracle raising for the first sub-query of topic `"t"` and
returning one result for every other query. -/
def searchFailFirst : String → Except String (List SearchItem) := fun q =>
  if q = "t recent developments" then Except.error "boom" else Except.ok [itemTCU]

/-- Search oracle raising for the second sub-query of topic `"t"` and
returning one result for every other query. -/
def searchFailMid : String → Except String (List SearchItem) := fun q =>
  if q = "t key players and companies" then Except.error "boom" else Except.ok [itemTCU]

/-- Summarizer oracle returning the fixed text `"S"` for every call. -/
def summarizeConstS : String → String → Except String String := fun _ _ => Except.ok "S"

/-- Summarizer oracle returning the fixed text `"sum"` for every call. -/
def summarizeConstSum : String → String → Except String String := fun _ _ => Except.ok "sum"

/-- The summarization prompt of the second sub-query of topic `"t"`
when the search returned `[itemTCU]`. -/
def promptKeyPlayers : String :=
  buildPrompt "t" ("t" ++ " key players and companies") (pyJoin "\n" ([itemTCU].map formatItem))

/-- Summarizer oracle raising exactly on the second sub-query prompt of
topic `"t"` and succeeding elsewhere. -/
def summarizeFailSecond : String → String → Except String String := fun _ b =>
  if b = promptKeyPlayers then Except.error "boom" else Except.ok "S1"

/-- A fully healthy oracle assignment: all credentials present, all
constructions succeed, search always returns `[itemTCU]`, the
summarizer returns `"sum"`, the report model returns `"REPORT"`. -/
def baseOracles : Oracles :=
  { groqKey := some "gk", tavilyKey := some "tk", geminiKey := some "gmk",
    mkChatGroq := .ok (), mkTavilyClient := .ok (), configureGenai := .ok (),
    mkGenerativeModel := .ok (), search := searchAllTCU, summarize := summarizeConstSum,
    report := fun _ => Except.ok "REPORT", today := "2026-10-12" }

/-- `baseOracles` with the Gemini credential absent. -/
def oNoGemini : Oracles := { baseOracles with geminiKey := none }

/-- `baseOracles` with every search returning zero results. -/
def oAllEmptySearch : Oracles := { baseOracles with search := fun _ => Except.ok [] }

/-- `baseOracles` with the summarizer raising on every call. -/
def oSumFail : Oracles := { baseOracles with summarize := fun _ _ => Except.error "boom" }

/-- `baseOracles` with the summarizer raising only on the second
sub-query prompt of topic `"t"`. -/
def oSumFailSecond : Oracles := { baseOracles with summarize := summarizeFailSecond }

/-- Search oracle returning one item with every dict key missing. -/
def searchNoneItem : String → Except String (List SearchItem) :=
  fun _ => Except.ok [{ title := none, content := none, url := none }]

/-- A content string of 1501 characters, longer than the 1500 bound. -/
def longContent : String := String.mk (List.replicate 1501 'a')

/-- The embedded slice agrees with `String.take`. -/
theorem pyTake_eq_take (s : String) (n : Nat) : pyTake s n = s.take n :=
  (String.take_eq s n).symm

/-- A search-failure text never equals the `"No results."` sentinel
(their first characters differ), so the loop in `research_topic` does
not skip a sub-query whose search raised. -/
theorem searchFailed_ne_noResults (e : String) : ("Search failed: " ++ e) ≠ "No results." := by
  intro h
  have h2 : List.head? (("Search failed: " ++ e).data) = List.head? ("No results.".data) := by rw [h]
  rw [String.data_append] at h2
  have h3 : (some 'S' : Option Char) = some 'N' := h2
  exact absurd h3 (by decide)

/-- The formatted text of a non-empty result list never equals the
`"No results."` sentinel (it starts with `'T'`). -/
theorem formatItems_ne_noResults (it : SearchItem) (its : List SearchItem) :
    pyJoin "\n" ((it :: its).map formatItem) ≠ "No results." := by
  intro h
  have h2 : List.head? ((pyJoin "\n" ((it :: its).map formatItem)).data) =
      List.head? ("No results.".data) := by rw [h]
  have h4 : (pyJoin "\n" ((it :: its).map formatItem)).data.head? = some 'T' := by
    cases its <;> rfl
  rw [h4] at h2
  exact absurd h2 (by decide)

/-- `_search_web` on a raising provider call. -/
theorem searchWeb_error (search : String → Except String (List SearchItem)) (q e : String)
    (h : search q = .error e) : searchWeb search q = "Search failed: " ++ e := by
  simp [searchWeb, h]

/-- `_search_web` on a non-empty result list. -/
theorem searchWeb_cons (search : String → Except String (List SearchItem)) (q : String)
    (it : SearchItem) (its : List SearchItem) (h : search q = .ok (it :: its)) :
    searchWeb search q = pyJoin "\n" ((it :: its).map formatItem) := by
  simp [searchWeb, h]

/-- `_search_web` on an empty result list. -/
theorem searchWeb_nil (search : String → Except String (List SearchItem)) (q : String)
    (h : search q = .ok []) : searchWeb search q = "No results." := by
  simp [searchWeb, h]

/-- The research loop makes no report-model calls. -/
theorem runQueriesT_countP_report (search : String → Except String (List SearchItem))
    (summarize : String → String → Except String String) (topic : String) (qs : List String) :
    ((runQueriesT search summarize topic qs).2.countP isReportCall) = 0 := by
  induction qs with
  | nil => rfl
  | cons q qs ih =>
    unfold runQueriesT
    by_cases h : searchWeb search q = "No results."
    · simp [h, List.countP_cons, isReportCall, ih]
    · rcases hm : summarize systemMsg (buildPrompt topic q (searchWeb search q)) with e | s <;>
        simp [h, hm, List.countP_cons, isReportCall, ih]

/-- The research stage makes no report-model calls. -/
theorem researchTopicT_countP_report (search : String → Except String (List SearchItem))
    (summarize : String → String → Except String String) (topic : String) :
    ((researchTopicT search summarize topic).2.countP isReportCall) = 0 := by
  simpa [researchTopicT] using runQueriesT_countP_report search summarize topic (queries topic)

/-- `create_report` invokes the report model exactly once, on the prompt
built from its `research_data` argument, whether or not the call raises. -/
theorem createReportT_trace (report : String → Except String String)
    (today topic researchData : String) :
    (createReportT report today topic researchData).2 =
      [Event.reportCall (reportPrompt today topic researchData)] := by
  rcases h : report (reportPrompt today topic researchData) with e | t <;>
    simp [createReportT, h]

/-- When initialization succeeds, a full run contains exactly one
report-model call. -/
theorem run_countP_report_one (o : Oracles) (topic : String)
    (hinit : researchSystemInitE o = .ok ()) :
    ((runFullResearchT o topic).2.countP isReportCall) = 1 := by
  simp [runFullResearchT, hinit, List.countP_append, researchTopicT_countP_report,
    createReportT_trace, List.countP_cons, isReportCall]

/-- When no sub-query's search text is the `"No results."` sentinel and
every summarizer call succeeds, the loop collects one summary per
sub-query, in order, each summarizing that sub-query's search text. -/
theorem runQueriesT_all_summarized (search : String → Except String (List SearchItem))
    (summarize : String → String → Except String String)
    (topic : String) (f : String → String)
    (hs : ∀ a b, summarize a b = .ok (f b)) :
    ∀ qs : List String, (∀ q ∈ qs, searchWeb search q ≠ "No results.") →
    (runQueriesT search summarize topic qs).1 =
      Except.ok (qs.map fun q => f (buildPrompt topic q (searchWeb search q))) := by
  intro qs
  induction qs with
  | nil => intro _; rfl
  | cons q qs ih =>
    intro h
    have hq := h q (by simp)
    have hrest := ih (fun p hp => h p (by simp [hp]))
    simp [runQueriesT, hq, hs, hrest, Except.map]

/-- If every sub-query before `q` is either skipped (its search text is
the sentinel) or summarized successfully, `q` is not skipped, and the
summarizer raises on the prompt of `q`, then the loop over
`pre ++ q :: post` yields that error — regardless of `post`, whose
sub-queries are never reached. -/
theorem runQueriesT_error_of_first_failure (search : String → Except String (List SearchItem))
    (summarize : String → String → Except String String) (topic e : String) :
    ∀ (pre : List String) (q : String) (post : List String),
    (∀ p ∈ pre, searchWeb search p = "No results." ∨
      ∃ s, summarize systemMsg (buildPrompt topic p (searchWeb search p)) = .ok s) →
    searchWeb search q ≠ "No results." →
    summarize systemMsg (buildPrompt topic q (searchWeb search q)) = .error e →
    (runQueriesT search summarize topic (pre ++ q :: post)).1 = Except.error e := by
  intro pre
  induction pre with
  | nil =>
    intro q post _ hq he
    simp [runQueriesT, hq, he]
  | cons p pre ih =>
    intro q post hpre hq he
    have hp := hpre p (by simp)
    have hrest := ih q post (fun r hr => hpre r (by simp [hr])) hq he
    by_cases hskip : searchWeb search p = "No results."
    · simp [runQueriesT, hskip, hrest]
    · rcases hp with hc | ⟨s, hok⟩
      · exact absurd hc hskip
      · simp [runQueriesT, hskip, hok, hrest, Except.map]

/-- Claim C1, counterexample.  Topic `"t"`, the first sub-query search
raises `"boom"`, the other two return one result each, and every
summarizer call succeeds with `"S"`: `research_topic` returns THREE
summaries joined by the separator, not the two the claim predicts — the
failed sub-query is not skipped, because `"Search failed: boom"` is not
the `"No results."` sentinel, so its failure text is itself summarized. -/
theorem claim1_counterexample :
    researchTopic searchFailFirst summarizeConstS "t" = pyJoin "\n\n---\n\n" ["S", "S", "S"] ∧
    pyJoin "\n\n---\n\n" ["S", "S", "S"] ≠ pyJoin "\n\n---\n\n" ["S", "S"] := by
  exact ⟨rfl, by decide⟩

/-- Claim C1, amended: if the search raises for exactly one of the
three sub-queries (whichever position it is) and returns non-empty
results for the other two, and every summarizer call succeeds, then the
research text contains exactly THREE summaries joined by the separator
in sub-query order — the failed sub-query is not skipped and
contributes a summary of its `"Search failed: <e>"` text (the run is
not aborted). -/
theorem claim1_search_failure_three_summaries
    (search : String → Except String (List SearchItem))
    (summarize : String → String → Except String String)
    (topic e : String) (f : String → String)
    (hone :
      (search (topic ++ " recent developments") = .error e ∧
       (∃ it its, search (topic ++ " key players and companies") = .ok (it :: its)) ∧
       (∃ it its, search (topic ++ " major challenges and opportunities") = .ok (it :: its))) ∨
      ((∃ it its, search (topic ++ " recent developments") = .ok (it :: its)) ∧
       search (topic ++ " key players and companies") = .error e ∧
       (∃ it its, search (topic ++ " major challenges and opportunities") = .ok (it :: its))) ∨
      ((∃ it its, search (topic ++ " recent developments") = .ok (it :: its)) ∧
       (∃ it its, search (topic ++ " key players and companies") = .ok (it :: its)) ∧
       search (topic ++ " major challenges and opportunities") = .error e))
    (hs : ∀ a b, summarize a b = .ok (f b)) :
    researchTopic search summarize topic = pyJoin "\n\n---\n\n"
      [f (buildPrompt topic (topic ++ " recent developments")
          (searchWeb search (topic ++ " recent developments"))),
       f (buildPrompt topic (topic ++ " key players and companies")
          (searchWeb search (topic ++ " key players and companies"))),
       f (buildPrompt topic (topic ++ " major challenges and opportunities")
          (searchWeb search (topic ++ " major challenges and opportunities")))] ∧
    (∀ q e', search q = .error e' → searchWeb search q = "Search failed: " ++ e') ∧
    (∀ q it its, search q = .ok (it :: its) →
      searchWeb search q = pyJoin "\n" ((it :: its).map formatItem)) := by
  refine ⟨?_, fun q e' he' => searchWeb_error search q e' he',
    fun q it its hq => searchWeb_cons search q it its hq⟩
  have neOk : ∀ q it its, search q = .ok (it :: its) →
      searchWeb search q ≠ "No results." := by
    intro q it its h
    rw [searchWeb_cons search q it its h]
    exact formatItems_ne_noResults it its
  have neErr : ∀ q e', search q = .error e' → searchWeb search q ≠ "No results." := by
    intro q e' h
    rw [searchWeb_error search q e' h]
    exact searchFailed_ne_noResults e'
  have hne : ∀ q ∈ queries topic, searchWeb search q ≠ "No results." := by
    intro q hq
    simp [queries] at hq
    rcases hone with ⟨hf, ⟨it2, its2, h2⟩, ⟨it3, its3, h3⟩⟩ |
        ⟨⟨it1, its1, h1⟩, hf, ⟨it3, its3, h3⟩⟩ |
        ⟨⟨it1, its1, h1⟩, ⟨it2, its2, h2⟩, hf⟩ <;>
      rcases hq with rfl | rfl | rfl <;>
      first
        | exact neErr _ _ hf
        | exact neOk _ _ _ h1
        | exact neOk _ _ _ h2
        | exact neOk _ _ _ h3
  have hloop := runQueriesT_all_summarized search summarize topic f hs (queries topic) hne
  simp only [queries, List.map_cons, List.map_nil] at hloop
  simp [researchTopic, researchTopicT, queries, hloop]

/-- Claim C1, witness for the amended theorem at a concrete input where
the SECOND sub-query's search raises. -/
theorem claim1_witness :
    researchTopic searchFailMid summarizeConstS "t" = "S\n\n---\n\nS\n\n---\n\nS" :=
  ((claim1_search_failure_three_summaries searchFailMid summarizeConstS "t" "boom"
    (fun _ => "S")
    (Or.inr (Or.inl ⟨⟨itemTCU, [], rfl⟩, rfl, ⟨itemTCU, [], rfl⟩⟩))
    (fun a b => rfl)).1).trans rfl

/-- Claim C2: `run_full_research` is a total `String`-valued function of
the topic and of arbitrary oracle behavior (so it never raises: every
provider exception is modelled and consumed here).  The only errors
reaching the outermost boundary are initialization errors, and they are
converted to the `# Research Failed` document followed by the error
message; in every other case the run returns the report-stage output. -/
theorem claim2_run_never_raises (o : Oracles) (topic : String) :
    (∀ e, researchSystemInitE o = .error e →
      runFullResearch o topic = "# Research Failed\n\nAn unexpected error occurred: " ++ e ++ "\n") ∧
    (researchSystemInitE o = .ok () →
      runFullResearch o topic =
        (createReportT o.report o.today topic (researchTopic o.search o.summarize topic)).1) := by
  constructor
  · intro e he
    simp [runFullResearch, runFullResearchT, he]
  · intro hok
    simp [runFullResearch, runFullResearchT, hok, researchTopic]

/-- Claim C2, witness: with the Gemini credential absent, the run
returns the failure document. -/
theorem claim2_witness :
    runFullResearch oNoGemini "T" =
      "# Research Failed\n\nAn unexpected error occurred: Missing GEMINI_API_KEY\n" :=
  (claim2_run_never_raises oNoGemini "T").1 "Missing GEMINI_API_KEY" rfl

/-- Claim C3, counterexample.  With every summarizer call raising
`"boom"` and all else healthy, `research_topic` itself returns normally
with `"Research failed: boom"` — the exception is caught by the research
stage, not by the outermost pipeline boundary: the pipeline goes on to
invoke the report model once and returns its output `"REPORT"`, which is
not the outermost-boundary failure document. -/
theorem claim3_counterexample :
    researchTopic oSumFail.search oSumFail.summarize "t" = "Research failed: boom" ∧
    runFullResearch oSumFail "t" = "REPORT" ∧
    ((runFullResearchT oSumFail "t").2.countP isReportCall) = 1 ∧
    "REPORT" ≠ "# Research Failed\n\nAn unexpected error occurred: boom\n" := by
  exact ⟨rfl, rfl, rfl, by decide⟩

/-- Claim C3, amended: whichever sub-query (any position, under any
search outcomes for the earlier sub-queries — skipped-as-empty or
summarized successfully) is the first whose summarizer call raises, the
exception is not recovered within the per-query loop: the loop itself
yields the error (first conjunct), aborting the whole research run —
already collected summaries are discarded and later sub-queries are
never reached — and it is caught by the try/except of `research_topic`
itself (which wraps the whole loop), producing `"Research failed: <e>"`;
that text is then passed on to the report stage, and the outermost
pipeline boundary is not involved. -/
theorem claim3_summarizer_failure_aborts (o : Oracles) (topic e : String)
    (pre post : List String) (q : String)
    (hinit : researchSystemInitE o = .ok ())
    (hsplit : queries topic = pre ++ q :: post)
    (hpre : ∀ p ∈ pre, searchWeb o.search p = "No results." ∨
      ∃ s, o.summarize systemMsg (buildPrompt topic p (searchWeb o.search p)) = .ok s)
    (hq : searchWeb o.search q ≠ "No results.")
    (he : o.summarize systemMsg (buildPrompt topic q (searchWeb o.search q)) = .error e) :
    (runQueriesT o.search o.summarize topic (queries topic)).1 = Except.error e ∧
    researchTopic o.search o.summarize topic = "Research failed: " ++ e ∧
    runFullResearch o topic = (createReportT o.report o.today topic ("Research failed: " ++ e)).1 := by
  have hloop : (runQueriesT o.search o.summarize topic (queries topic)).1 = Except.error e := by
    rw [hsplit]
    exact runQueriesT_error_of_first_failure o.search o.summarize topic e pre q post hpre hq he
  have hr : researchTopic o.search o.summarize topic = "Research failed: " ++ e := by
    simp [researchTopic, researchTopicT, hloop]
  refine ⟨hloop, hr, ?_⟩
  simp only [researchTopic] at hr
  simp [runFullResearch, runFullResearchT, hinit, hr]

/-- Claim C3, witness for the amended theorem: the summarizer raises
only on the second sub-query (first sub-query searched and summarized
successfully); the first summary is discarded and the report stage
still runs on the research-failure text. -/
theorem claim3_witness :
    researchTopic oSumFailSecond.search oSumFailSecond.summarize "t" = "Research failed: boom" ∧
    runFullResearch oSumFailSecond "t" = "REPORT" := by
  have hpre : ∀ p ∈ ["t" ++ " recent developments"],
      searchWeb oSumFailSecond.search p = "No results." ∨
      ∃ s, oSumFailSecond.summarize systemMsg
        (buildPrompt "t" p (searchWeb oSumFailSecond.search p)) = .ok s := by
    intro p hp
    simp at hp
    subst hp
    exact Or.inr ⟨"S1", rfl⟩
  have h := claim3_summarizer_failure_aborts oSumFailSecond "t" "boom"
    ["t" ++ " recent developments"] ["t" ++ " major challenges and opportunities"]
    ("t" ++ " key players and companies") rfl rfl hpre (by decide) rfl
  exact ⟨h.2.1, h.2.2.trans rfl⟩

/-- Claim C4, counterexample.  With the Groq key present and the Tavily
key absent, `ResearchAgent.__init__` raises the fixed message
`"Missing GROQ_API_KEY or TAVILY_API_KEY"`, which does NOT contain the
substring `"Missing TAVILY_API_KEY"` demanded by the claim for the
absent key (it does contain `"Missing GROQ_API_KEY"`, naming a key that
is present). -/
theorem claim4_counterexample :
    researchAgentInitE (some "g") none (.ok ()) (.ok ()) =
      .error "Missing GROQ_API_KEY or TAVILY_API_KEY" ∧
    containsSub "Missing GROQ_API_KEY or TAVILY_API_KEY" "Missing TAVILY_API_KEY" = false ∧
    containsSub "Missing GROQ_API_KEY or TAVILY_API_KEY" "Missing GROQ_API_KEY" = true := by
  exact ⟨rfl, by decide, by decide⟩

/-- Claim C4, amended: when either research-agent credential is falsy,
construction fails with the FIXED message
`"Missing GROQ_API_KEY or TAVILY_API_KEY"` (not identifying which of
the two is absent); when the Gemini credential is falsy, the analyst
construction fails with `"Missing GEMINI_API_KEY"`.  The errors are
returned as `Except.error` results of the constructors, never caught
inside them. -/
theorem claim4_missing_key_errors (g t gm : Option String) (mg mt cg mm : Except String Unit) :
    ((pyTruthy g && pyTruthy t) = false →
      researchAgentInitE g t mg mt = .error "Missing GROQ_API_KEY or TAVILY_API_KEY") ∧
    (pyTruthy gm = false →
      analystAgentInitE gm cg mm = .error "Missing GEMINI_API_KEY") := by
  constructor <;> intro h <;> simp [researchAgentInitE, analystAgentInitE, h]

/-- Claim C4, witness for the amended theorem at concrete inputs. -/
theorem claim4_witness :
    (pyTruthy (some "g") && pyTruthy none) = false ∧
    researchAgentInitE (some "g") none (.ok ()) (.ok ()) =
      .error "Missing GROQ_API_KEY or TAVILY_API_KEY" ∧
    analystAgentInitE none (.ok ()) (.ok ()) = .error "Missing GEMINI_API_KEY" := by
  have h := claim4_missing_key_errors (some "g") none none (.ok ()) (.ok ()) (.ok ()) (.ok ())
  exact ⟨rfl, h.1 rfl, h.2 rfl⟩

/-- Claim C5: when every one of the three sub-query searches returns
zero results, `research_topic` returns exactly the literal
insufficient-information text, its trace holds the three search calls
and no summarizer call, and the pipeline still invokes the report model
once, with that literal as the `research_data` of the report prompt. -/
theorem claim5_all_empty_search (o : Oracles) (topic : String)
    (hinit : researchSystemInitE o = .ok ())
    (hs : ∀ q ∈ queries topic, o.search q = .ok []) :
    researchTopic o.search o.summarize topic = "Could not find sufficient information on the topic." ∧
    (researchTopicT o.search o.summarize topic).2 = (queries topic).map Event.searchCall ∧
    runFullResearchT o topic =
      ((createReportT o.report o.today topic "Could not find sufficient information on the topic.").1,
       (queries topic).map Event.searchCall ++
         [Event.reportCall (reportPrompt o.today topic "Could not find sufficient information on the topic.")]) := by
  have h1 := hs (topic ++ " recent developments") (by simp [queries])
  have h2 := hs (topic ++ " key players and companies") (by simp [queries])
  have h3 := hs (topic ++ " major challenges and opportunities") (by simp [queries])
  have w1 := searchWeb_nil o.search _ h1
  have w2 := searchWeb_nil o.search _ h2
  have w3 := searchWeb_nil o.search _ h3
  refine ⟨?_, ?_, ?_⟩
  · simp [researchTopic, researchTopicT, runQueriesT, queries, w1, w2, w3]
  · simp [researchTopicT, runQueriesT, queries, w1, w2, w3]
  · have hr : researchTopic o.search o.summarize topic =
        "Could not find sufficient information on the topic." := by
      simp [researchTopic, researchTopicT, runQueriesT, queries, w1, w2, w3]
    simp [runFullResearchT, hinit, createReportT_trace, researchTopic] at hr ⊢
    simp [hr, researchTopicT, runQueriesT, queries, w1, w2, w3, createReportT_trace]

/-- Claim C5, witness at a concrete oracle with all searches empty. -/
theorem claim5_witness :
    researchTopic oAllEmptySearch.search oAllEmptySearch.summarize "t" =
      "Could not find sufficient information on the topic." ∧
    (researchTopicT oAllEmptySearch.search oAllEmptySearch.summarize "t").2 =
      (queries "t").map Event.searchCall := by
  have h := claim5_all_empty_search oAllEmptySearch "t" rfl (fun q _ => rfl)
  exact ⟨h.1, h.2.1⟩

/-- Claim C6: with all credentials present, construction succeeding, and
every provider call succeeding, `run_full_research` returns the report
model raw output verbatim, and the report model is invoked exactly once
per run. -/
theorem claim6_report_verbatim (o : Oracles) (topic : String)
    (hinit : researchSystemInitE o = .ok ())
    (hsearch : ∀ q, ∃ l, o.search q = .ok l)
    (hsum : ∀ a b, ∃ s, o.summarize a b = .ok s)
    (hrep : ∀ p, ∃ r, o.report p = .ok r) :
    (∃ r, o.report (reportPrompt o.today topic (researchTopic o.search o.summarize topic)) = .ok r ∧
      runFullResearch o topic = r) ∧
    ((runFullResearchT o topic).2.countP isReportCall) = 1 := by
  obtain ⟨r, hr⟩ := hrep (reportPrompt o.today topic (researchTopic o.search o.summarize topic))
  refine ⟨⟨r, hr, ?_⟩, ?_⟩
  · simp only [researchTopic] at hr
    simp [runFullResearch, runFullResearchT, hinit, createReportT, hr]
  · exact run_countP_report_one o topic hinit

/-- Claim C6, witness at the fully healthy concrete oracle. -/
theorem claim6_witness :
    runFullResearch baseOracles "t" = "REPORT" ∧
    ((runFullResearchT baseOracles "t").2.countP isReportCall) = 1 := by
  have h := claim6_report_verbatim baseOracles "t" rfl
    (fun q => ⟨[itemTCU], rfl⟩) (fun a b => ⟨"sum", rfl⟩) (fun p => ⟨"REPORT", rfl⟩)
  refine ⟨?_, h.2⟩
  obtain ⟨r, hr, hrun⟩ := h.1
  exact hrun.trans (Except.ok.inj hr).symm

/-- Claim C7: concrete scenario — topic `"AI in Healthcare"`, every
search returns the single result with title `"T"`, content `"C"`, url
`"U"`, and the summarizer returns `"sum"` for every call;
`research_topic` returns exactly the three summaries joined by the fixed
separator. -/
theorem claim7_concrete_scenario :
    researchTopic searchAllTCU summarizeConstSum "AI in Healthcare" =
      "sum\n\n---\n\nsum\n\n---\n\nsum" := rfl

/-- Claim C8: the content embedded in the formatted search text is the
slice `content[:1500]`; when the content is longer than 1500 characters
the embedded text has exactly 1500 characters and equals the first 1500
characters of the content, and content of at most 1500 characters is
embedded unchanged. -/
theorem claim8_truncation (t u : Option String) (c : String) :
    formatItem { title := t, content := some c, url := u } =
      "Title: " ++ t.getD "N/A" ++ "\nContent: " ++ pyTake c 1500 ++
      "\nURL: " ++ u.getD "N/A" ++ "\n---" ∧
    (1500 < c.length → (pyTake c 1500).length = 1500 ∧ (pyTake c 1500).data = c.data.take 1500) ∧
    (c.length ≤ 1500 → pyTake c 1500 = c) := by
  refine ⟨rfl, fun h => ⟨?_, rfl⟩, fun h => ?_⟩
  · show (c.data.take 1500).length = 1500
    rw [List.length_take]
    exact Nat.min_eq_left (Nat.le_of_lt h)
  · show String.mk (c.data.take 1500) = c
    rw [List.take_of_length_le h]

/-- Claim C8, witness at a concrete 1501-character content string. -/
theorem claim8_witness :
    1500 < longContent.length ∧
    (pyTake longContent 1500).length = 1500 ∧
    (pyTake longContent 1500).data = longContent.data.take 1500 := by
  have hl : longContent.length = 1501 := by
    simp only [longContent, String.mk_length, List.length_replicate]
  have h : 1500 < longContent.length := by rw [hl]; norm_num
  exact ⟨h, (claim8_truncation none none longContent).2.1 h⟩

/-- Claim C9: whenever initialization succeeds, the pipeline passes
whatever string `research_topic` returned — including the failure
sentinels, since the statement quantifies over all oracle behavior —
to `create_report`, whose single report-model call is the only one in
the trace: the pipeline never short-circuits between the stages. -/
theorem claim9_report_called_once (o : Oracles) (topic : String)
    (hinit : researchSystemInitE o = .ok ()) :
    runFullResearch o topic =
      (createReportT o.report o.today topic (researchTopic o.search o.summarize topic)).1 ∧
    (runFullResearchT o topic).2 =
      (researchTopicT o.search o.summarize topic).2 ++
        [Event.reportCall (reportPrompt o.today topic (researchTopic o.search o.summarize topic))] ∧
    ((runFullResearchT o topic).2.countP isReportCall) = 1 := by
  refine ⟨?_, ?_, ?_⟩
  · simp [runFullResearch, runFullResearchT, hinit, researchTopic]
  · simp [runFullResearchT, hinit, createReportT_trace, researchTopic]
  · exact run_countP_report_one o topic hinit

/-- Claim C9, witness at the healthy concrete oracle. -/
theorem claim9_witness :
    ((runFullResearchT baseOracles "q").2.countP isReportCall) = 1 ∧
    runFullResearch baseOracles "q" =
      (createReportT baseOracles.report baseOracles.today "q"
        (researchTopic baseOracles.search baseOracles.summarize "q")).1 := by
  have h := claim9_report_called_once baseOracles "q" rfl
  exact ⟨h.2.2, h.1⟩

/-- Claim C10: `_search_web` is total, and an item with missing dict
keys is rendered with the `"N/A"` default in each position — the
content default also passing through the `[:1500]` slice — so malformed
result entries never abort a sub-query. -/
theorem claim10_missing_fields_na
    (f : String → Except String (List SearchItem)) (q : String)
    (it : SearchItem) (its : List SearchItem) (h : f q = .ok (it :: its)) :
    searchWeb f q = pyJoin "\n" ((it :: its).map formatItem) ∧
    (∀ t c u, formatItem { title := t, content := c, url := u } =
      "Title: " ++ t.getD "N/A" ++ "\nContent: " ++ pyTake (c.getD "N/A") 1500 ++
      "\nURL: " ++ u.getD "N/A" ++ "\n---") ∧
    formatItem { title := none, content := none, url := none } =
      "Title: N/A\nContent: N/A\nURL: N/A\n---" := by
  exact ⟨searchWeb_cons f q it its h, fun t c u => rfl, rfl⟩

/-- Claim C10, witness: a response whose single item lacks every key. -/
theorem claim10_witness :
    searchWeb searchNoneItem "q" = "Title: N/A\nContent: N/A\nURL: N/A\n---" := by
  have h := claim10_missing_fields_na searchNoneItem "q"
    { title := none, content := none, url := none } [] rfl
  exact h.1.trans rfl

end NitroAgent
